import Mathlib

/-!
Shallow embedding of the MeshConfigurator connection-arbitration core
(`controllers/settings_controller.py`): port enumeration and scoring,
probe throttling, the connect arbiter, and the last-known-good store.

External effects (pyserial enumeration, opening a device session, the
identity query, the monotonic clock, the preference file) are modelled
as an explicit environment `SysEnv` plus explicit state `ArbState`;
each operation returns its result, the successor state, and a trace of
the externally visible attempts it made (port opens, probes, store
reads and writes).
-/

namespace MeshCfg

/-- Python truthiness of an optional string: `None` and the empty string
are falsy, every other string is truthy. -/
def py_truthy : Option String → Bool
  | none => false
  | some s => !(s == "")

/-- Python `a or b` on optional strings: yields `a` when `a` is truthy,
otherwise `b`. -/
def py_or_str (a b : Option String) : Option String :=
  if py_truthy a then a else b

/-- Does the second character list occur at the start of the first? -/
def list_starts_with : List Char → List Char → Bool
  | _, [] => true
  | [], _ :: _ => false
  | c :: cs, d :: ds => c == d && list_starts_with cs ds

/-- Python `str.startswith`. -/
def str_starts_with (s p : String) : Bool := list_starts_with s.toList p.toList

/-- Python `str.lower` (character-wise case folding). -/
def str_lower (s : String) : String := String.mk (s.toList.map Char.toLower)

/-- Python `str.upper` (character-wise case folding). -/
def str_upper (s : String) : String := String.mk (s.toList.map Char.toUpper)

/-- Does the needle occur as a contiguous run inside the haystack? -/
def list_contains_sub (needle : List Char) : List Char → Bool
  | [] => list_starts_with [] needle
  | c :: t => list_starts_with (c :: t) needle || list_contains_sub needle t

/-- Substring test: `needle in hay` in Python. -/
def str_contains (hay needle : String) : Bool :=
  list_contains_sub needle.toList hay.toList

/-- One raw entry from `serial.tools.list_ports.comports()`, with best
effort metadata.  `parse_fails` models an exception raised while this
entry is processed inside the per-port `try` of `detect_candidates`
(such entries are skipped, never fatal). -/
structure RawPort where
  device : String
  description : Option String := none
  manufacturer : Option String := none
  product : Option String := none
  serial_number : Option String := none
  vid : Option Int := none
  pid : Option Int := none
  hwid : Option String := none
  interface : Option String := none
  parse_fails : Bool := false
deriving DecidableEq

/-- One scored candidate dict produced by `detect_candidates`. -/
structure Candidate where
  path : String
  description : String
  manufacturer : Option String
  product : Option String
  serial_number : Option String
  vid : Option Int
  pid : Option Int
  hwid : Option String
  is_bluetooth : Bool
  is_legacy : Bool
  score : Int
  friendly : String
  verified : Bool := false
deriving DecidableEq

instance : Inhabited Candidate :=
  ⟨{ path := "", description := "", manufacturer := none, product := none,
     serial_number := none, vid := none, pid := none, hwid := none,
     is_bluetooth := false, is_legacy := false, score := 0, friendly := "" }⟩

/-- The structured record stored in `self._last_error`. -/
structure ErrRecord where
  code : String
  detail : String
  candidates : Option (List Candidate) := none
deriving DecidableEq

/-- The persisted preference file `~/.mesh_configurator.json`: it can be
absent, unreadable or unparsable, or a readable record holding an
optional `last_good_port` value. -/
inductive StoreFile where
  | missing
  | corrupt
  | valid (last_good_port : Option String)
deriving DecidableEq

/-- Externally visible attempts made by the controller. -/
inductive Event where
  | open_attempt (port : String)
  | probe_attempt (port : String)
  | store_read
  | store_write (port : String)
deriving DecidableEq

/-- The controller state owned by one `SettingsController` instance. -/
structure ArbState where
  explicit_port : Option String
  dc : Option String
  last_error : Option ErrRecord
  last_good_port : Option String
  probe_recent : List (String × ℚ)
  store : StoreFile
deriving DecidableEq

/-- The environment: platform flags, the pyserial listing facility, and
the outcomes of opening, identifying and probing ports, plus whether a
preference-file write succeeds. -/
structure SysEnv where
  os_is_nt : Bool
  sys_is_darwin : Bool
  comports : Except String (List RawPort)
  open_ok : String → Bool
  open_err : String → String
  ident_port : String → Option String
  probe_ok : String → ℚ → Bool
  write_ok : Bool

/-- The known USB-serial bridge vendor ids of `_score_port`. -/
def known_vendors : List (Option Int) :=
  [some 0x10C4, some 0x1A86, some 0x0403, some 0x2E8A]

/-- The keyword test of `_score_port`: the space-joined description,
manufacturer and product text, lowercased, contains one of the typical
serial-chip strings. -/
def keyword_hit (desc manu prod : Option String) : Bool :=
  let s := (desc.getD "") ++ " " ++ (manu.getD "") ++ " " ++ (prod.getD "")
  ["usb", "uart", "cp210", "ch340", "ftdi", "silicon labs", "serial"].any
    fun k => str_contains (str_lower s) k

/-- `SettingsController._score_port`. -/
def _score_port (dev : String) (vid pid : Option Int) (desc manu prod : Option String)
    (is_bt is_leg : Bool) : Int :=
  (if vid.isSome ∧ pid.isSome then 50 else 0)
  + (if vid ∈ known_vendors then 20 else 0)
  + (if str_starts_with dev "/dev/ttyUSB" || str_starts_with dev "/dev/ttyACM" then 10 else 0)
  + (if str_starts_with dev "/dev/tty." then 5 else 0)
  + (if is_bt then -30 else 0)
  + (if is_leg then -15 else 0)
  + (if keyword_hit desc manu prod then 5 else 0)

/-- Bluetooth text detection over one optional field. -/
def opt_has_bluetooth : Option String → Bool
  | none => false
  | some s => str_contains (str_lower s) "bluetooth"

/-- The per-port body of `detect_candidates`: builds one candidate dict,
or skips the entry when its processing raises. -/
def parse_port (env : SysEnv) (p : RawPort) : Option Candidate :=
  if p.parse_fails then none
  else
    let dev := p.device
    let desc := if py_truthy p.description then p.description.getD "" else dev
    let is_bt := opt_has_bluetooth (some desc) || opt_has_bluetooth p.manufacturer
      || opt_has_bluetooth p.product || opt_has_bluetooth p.interface
    let is_leg := env.os_is_nt && str_starts_with (str_upper dev) "COM1"
    let score := _score_port dev p.vid p.pid (some desc) p.manufacturer p.product is_bt is_leg
    let head := if py_truthy p.product then [p.product.getD ""]
      else if py_truthy p.manufacturer then [p.manufacturer.getD ""]
      else [desc]
    let parts := head ++ ["Port: " ++ dev]
      ++ (if py_truthy p.manufacturer then ["Manufacturer: " ++ p.manufacturer.getD ""] else [])
      ++ (if py_truthy p.serial_number then ["Serial: " ++ p.serial_number.getD ""] else [])
    some
      { path := dev
        description := String.intercalate " | "
          (((some desc :: [p.manufacturer, p.product]).filterMap id).filter
            fun s => !(s == ""))
        manufacturer := p.manufacturer
        product := p.product
        serial_number := p.serial_number
        vid := p.vid
        pid := p.pid
        hwid := p.hwid
        is_bluetooth := is_bt
        is_legacy := is_leg
        score := score
        friendly := String.intercalate "\n" parts }

/-- The macOS post-processing nudge of `detect_candidates`. -/
def darwin_adjust (env : SysEnv) (c : Candidate) : Candidate :=
  if env.sys_is_darwin then
    let c1 := if str_starts_with c.path "/dev/tty." then { c with score := c.score + 5 } else c
    if str_starts_with c1.path "/dev/cu." then { c1 with score := c1.score - 2 } else c1
  else c

/-- The Windows post-processing Bluetooth demotion of `detect_candidates`. -/
def windows_adjust (env : SysEnv) (c : Candidate) : Candidate :=
  if env.os_is_nt && c.is_bluetooth then { c with score := c.score - 25 } else c

/-- The candidate list of `detect_candidates` before the final sort, in
enumeration order: parsed entries (malformed ones skipped), with both
platform adjustments applied. -/
def pre_candidates (env : SysEnv) (ports : List RawPort) : List Candidate :=
  ((ports.filterMap (parse_port env)).map (darwin_adjust env)).map (windows_adjust env)

/-- Stable descending insertion by score: the new element goes in front
of the first element whose score is not larger.  Elements inserted
earlier therefore stay in front of later equal-scored ones. -/
def insert_desc (x : Candidate) : List Candidate → List Candidate
  | [] => [x]
  | y :: ys => if y.score ≤ x.score then x :: y :: ys else y :: insert_desc x ys

/-- `out.sort(key=lambda d: score, reverse=True)`: a stable descending
sort by score. -/
def sort_by_score_desc : List Candidate → List Candidate
  | [] => []
  | x :: xs => insert_desc x (sort_by_score_desc xs)

/-- `SettingsController.detect_candidates`: fails only when the listing
facility itself fails, otherwise scores, adjusts and sorts. -/
def detect_candidates (env : SysEnv) : Except String (List Candidate) :=
  match env.comports with
  | .error e => .error e
  | .ok ports => .ok (sort_by_score_desc (pre_candidates env ports))

/-- `SettingsController._load_last_good_port`: a missing file or any
read or parse failure yields `none` instead of raising. -/
def _load_last_good_port : StoreFile → Option String
  | .missing => none
  | .corrupt => none
  | .valid v => v

/-- `SettingsController._save_last_good_port`: best-effort write of the
single-record JSON file; a failed write leaves the file untouched. -/
def _save_last_good_port (port : String) (env : SysEnv) (file : StoreFile) : StoreFile :=
  if env.write_ok then .valid (some port) else file

/-- `SettingsController.__init__`: reads the preference file once and
starts disconnected with no recent probes and no recorded error. -/
def init_controller (explicit_port : Option String) (file : StoreFile) :
    ArbState × List Event :=
  ({ explicit_port := explicit_port
     dc := none
     last_error := none
     last_good_port := _load_last_good_port file
     probe_recent := []
     store := file },
   [Event.store_read])

/-- `SettingsController.try_connect`: on success holds the session,
writes the preference file and returns the port; on failure records an
`open_failed` error and returns `None`. -/
def try_connect (st : ArbState) (port : String) (env : SysEnv) :
    Option String × ArbState × List Event :=
  if env.open_ok port then
    (some port,
     { st with dc := some port, store := _save_last_good_port port env st.store },
     [Event.open_attempt port, Event.store_write port])
  else
    (none,
     { st with
        last_error := some { code := "open_failed", detail := env.open_err port }
        dc := none },
     [Event.open_attempt port])

/-- `SettingsController._probe_port` at monotonic time `t`: a probe
within 5 seconds of the recorded last probe on the same path is skipped
and reported false without opening anything; otherwise the transient
open-and-identify attempt runs (its outcome is `env.probe_ok`) and the
per-path timestamp is set to `t`. -/
def _probe_port (st : ArbState) (port : String) (t : ℚ) (timeout_s : ℚ) (env : SysEnv) :
    Bool × ArbState × List Event :=
  let last := (List.lookup port st.probe_recent).getD 0
  if t - last < 5 then (false, st, [])
  else
    (env.probe_ok port timeout_s,
     { st with probe_recent := (port, t) :: st.probe_recent },
     [Event.probe_attempt port])

/-- Step 5 loop of `auto_connect_or_candidates`: probe each candidate in
turn (with a 4 second timeout), collecting verified copies; `ts` feeds
the monotonic clock reading of each successive probe. -/
def probe_loop : List Candidate → List ℚ → ArbState → SysEnv →
    List Candidate × ArbState × List Event
  | [], _, st, _ => ([], st, [])
  | c :: cs, ts, st, env =>
      let r := _probe_port st c.path (ts.headD 0) 4 env
      let rest := probe_loop cs ts.tail r.2.1 env
      ((if r.1 then [{ c with verified := true }] else []) ++ rest.1,
       rest.2.1, r.2.2 ++ rest.2.2)

/-- Steps 5 and 6 of `auto_connect_or_candidates`: probe up to the top 3
of the working subset; if exactly one verifies, try it; otherwise (or if
that open fails or yields a falsy port) return the working subset. -/
def acoc_probe (st : ArbState) (cands_use : List Candidate) (ts : List ℚ) (env : SysEnv) :
    (Option String × List Candidate) × ArbState × List Event :=
  let pr := probe_loop (cands_use.take 3) ts st env
  if pr.1.length = 1 then
    let r := try_connect pr.2.1 (pr.1.headD default).path env
    if py_truthy r.1 then ((r.1, []), r.2.1, pr.2.2 ++ r.2.2)
    else ((none, cands_use), r.2.1, pr.2.2 ++ r.2.2)
  else ((none, cands_use), pr.2.1, pr.2.2)

/-- Step 4 of `auto_connect_or_candidates`: a single high-confidence
candidate is tried directly; on a truthy connect the flow returns, else
it falls through to probing. -/
def acoc_select (st : ArbState) (cands_use : List Candidate) (ts : List ℚ) (env : SysEnv) :
    (Option String × List Candidate) × ArbState × List Event :=
  let top := cands_use.headD default
  if cands_use.length = 1 ∧ 40 ≤ top.score then
    let r := try_connect st top.path env
    if py_truthy r.1 then ((r.1, []), r.2.1, r.2.2)
    else
      let k := acoc_probe r.2.1 cands_use ts env
      (k.1, k.2.1, r.2.2 ++ k.2.2)
  else acoc_probe st cands_use ts env

/-- Step 3 of `auto_connect_or_candidates`: enumerate; a facility
failure is caught and recorded as `open_failed`; zero candidates is
recorded as `no_candidates`; otherwise the Bluetooth partition selects
the working subset and selection continues. -/
def acoc_enumerate (st : ArbState) (ts : List ℚ) (env : SysEnv) :
    (Option String × List Candidate) × ArbState × List Event :=
  match detect_candidates env with
  | .error e =>
      ((none, []), { st with last_error := some { code := "open_failed", detail := e } }, [])
  | .ok cands =>
      if cands.length = 0 then
        ((none, []),
         { st with last_error := some (ErrRecord.mk "no_candidates" "No serial devices found" none) },
         [])
      else
        let non_bt := cands.filter fun c => !c.is_bluetooth
        let cands_use := if non_bt = [] then cands else non_bt
        acoc_select st cands_use ts env

/-- Step 2 of `auto_connect_or_candidates`: a truthy saved last-good
port is tried; on a truthy connect the flow returns, else it falls
through to enumeration. -/
def acoc_lastgood (st : ArbState) (ts : List ℚ) (env : SysEnv) :
    (Option String × List Candidate) × ArbState × List Event :=
  if py_truthy st.last_good_port then
    let r := try_connect st (st.last_good_port.getD "") env
    if py_truthy r.1 then ((r.1, []), r.2.1, r.2.2)
    else
      let k := acoc_enumerate r.2.1 ts env
      (k.1, k.2.1, r.2.2 ++ k.2.2)
  else acoc_enumerate st ts env

/-- Step 1 of `auto_connect_or_candidates`: a truthy explicit port is
tried first; on a truthy connect the flow returns, else it falls
through to the saved-port strategy. -/
def acoc_explicit (st : ArbState) (ts : List ℚ) (env : SysEnv) :
    (Option String × List Candidate) × ArbState × List Event :=
  if py_truthy st.explicit_port then
    let r := try_connect st (st.explicit_port.getD "") env
    if py_truthy r.1 then ((r.1, []), r.2.1, r.2.2)
    else
      let k := acoc_lastgood r.2.1 ts env
      (k.1, k.2.1, r.2.2 ++ k.2.2)
  else acoc_lastgood st ts env

/-- `SettingsController.auto_connect_or_candidates`: clears the last
error, short-circuits on an already-held session (returning the bound
port from the identity query, else the explicit port), and otherwise
runs the strategy cascade. -/
def auto_connect_or_candidates (st : ArbState) (ts : List ℚ) (env : SysEnv) :
    (Option String × List Candidate) × ArbState × List Event :=
  let st0 : ArbState := { st with last_error := none }
  match st0.dc with
  | some p => ((py_or_str (env.ident_port p) st0.explicit_port, []), st0, [])
  | none => acoc_explicit st0 ts env

/-- `SettingsController.connect_autodetect_if_single`: runs the advanced
flow; a truthy port is returned as-is; with no candidates the previously
recorded error stands; with candidates a `multiple_candidates` error
carrying the list is recorded. -/
def connect_autodetect_if_single (st : ArbState) (ts : List ℚ) (env : SysEnv) :
    Option String × ArbState × List Event :=
  let r := auto_connect_or_candidates st ts env
  if py_truthy r.1.1 then (r.1.1, r.2.1, r.2.2)
  else if r.1.2 = [] then (none, r.2.1, r.2.2)
  else
    (none,
     { r.2.1 with last_error := some (ErrRecord.mk "multiple_candidates" "Multiple serial devices found" (some r.1.2)) },
     r.2.2)

/-! Concrete inputs used to exercise the definitions in closed theorems. -/

/-- A freshly constructed controller with no explicit port and no
preference file. -/
def fresh_state : ArbState := (init_controller none StoreFile.missing).1

/-- A base environment: non-Windows, non-macOS, empty enumeration,
every open succeeds, sessions identify as a fixed port, probes fail,
writes succeed. -/
def base_env : SysEnv :=
  { os_is_nt := false
    sys_is_darwin := false
    comports := Except.ok []
    open_ok := fun _ => true
    open_err := fun _ => "could not open"
    ident_port := fun _ => some "/dev/ttyUSB0"
    probe_ok := fun _ _ => false
    write_ok := true }

/-- An environment enumerating exactly one USB bridge port. -/
def env_single : SysEnv :=
  { base_env with
    comports := Except.ok [{ device := "/dev/ttyUSB0", vid := some 0x10C4, pid := some 1 }] }

/-- The candidate that `env_single` produces. -/
def cand_single : Candidate :=
  { path := "/dev/ttyUSB0"
    description := "/dev/ttyUSB0"
    manufacturer := none
    product := none
    serial_number := none
    vid := some 0x10C4
    pid := some 1
    hwid := none
    is_bluetooth := false
    is_legacy := false
    score := 85
    friendly := "/dev/ttyUSB0\nPort: /dev/ttyUSB0" }

/-- An environment whose listing facility itself fails. -/
def env_enum_fail : SysEnv :=
  { base_env with comports := Except.error "usb subsystem failure" }

/-- Four ports, two pairs of equal score, to exercise sorting and
stability. -/
def ports_four : List RawPort :=
  [{ device := "a", vid := some 1, pid := some 1 },
   { device := "b", vid := some 0x10C4, pid := some 1 },
   { device := "c", vid := some 2, pid := some 1 },
   { device := "d", vid := some 0x1A86, pid := some 1 }]

/-- An environment enumerating `ports_four`. -/
def env_four : SysEnv := { base_env with comports := Except.ok ports_four }

/-- A state that recorded a probe of COM3 at monotonic time 10. -/
def probe_state : ArbState := { fresh_state with probe_recent := [("COM3", 10)] }

/-- A Windows-family environment. -/
def env_windows : SysEnv := { base_env with os_is_nt := true }

/-- An environment in which no port can be opened. -/
def env_openfail : SysEnv := { base_env with open_ok := fun _ => false }

/-- A Bluetooth-flagged copy of `cand_single`. -/
def cand_bt : Candidate := { cand_single with is_bluetooth := true }

/-! Sorting lemmas: `sort_by_score_desc` is a stable descending sort. -/

theorem insert_desc_perm (x : Candidate) (l : List Candidate) :
    List.Perm (insert_desc x l) (x :: l) := by
  induction l with
  | nil => simp [insert_desc]
  | cons y ys ih =>
    simp only [insert_desc]
    split
    · exact List.Perm.refl _
    · exact (ih.cons y).trans (List.Perm.swap x y ys)

theorem insert_desc_sorted (x : Candidate) (l : List Candidate)
    (h : l.Pairwise fun a b => b.score ≤ a.score) :
    (insert_desc x l).Pairwise fun a b => b.score ≤ a.score := by
  induction l with
  | nil => simp [insert_desc]
  | cons y ys ih =>
    rcases List.pairwise_cons.1 h with ⟨hy, hys⟩
    simp only [insert_desc]
    split
    · rename_i hle
      refine List.pairwise_cons.2 ⟨?_, h⟩
      intro b hb
      rcases List.mem_cons.1 hb with rfl | hb
      · exact hle
      · exact le_trans (hy _ hb) hle
    · rename_i hgt
      refine List.pairwise_cons.2 ⟨?_, ih hys⟩
      intro b hb
      rcases List.mem_cons.1 ((insert_desc_perm x ys).mem_iff.1 hb) with rfl | hb
      · exact le_of_lt (lt_of_not_le hgt)
      · exact hy _ hb

theorem sort_by_score_desc_sorted (l : List Candidate) :
    (sort_by_score_desc l).Pairwise fun a b => b.score ≤ a.score := by
  induction l with
  | nil => simp [sort_by_score_desc]
  | cons x xs ih => exact insert_desc_sorted x _ ih

theorem filter_insert_desc_of_ne (x : Candidate) (l : List Candidate) (s : Int)
    (hx : ¬ x.score = s) :
    (insert_desc x l).filter (fun c => decide (c.score = s)) =
      l.filter fun c => decide (c.score = s) := by
  induction l with
  | nil => simp [insert_desc, hx]
  | cons y ys ih =>
    simp only [insert_desc]
    split
    · simp [List.filter_cons, hx]
    · simp [List.filter_cons, ih]

theorem filter_insert_desc_of_eq (x : Candidate) (l : List Candidate) (s : Int)
    (hx : x.score = s) (hl : l.Pairwise fun a b => b.score ≤ a.score) :
    (insert_desc x l).filter (fun c => decide (c.score = s)) =
      x :: l.filter fun c => decide (c.score = s) := by
  induction l with
  | nil => simp [insert_desc, hx]
  | cons y ys ih =>
    rcases List.pairwise_cons.1 hl with ⟨hy, hys⟩
    simp only [insert_desc]
    split
    · simp [List.filter_cons, hx]
    · rename_i hgt
      have hxy : x.score < y.score := lt_of_not_le hgt
      have hyne : ¬ y.score = s := by omega
      simp [List.filter_cons, hyne, hx, ih hys]

theorem sort_by_score_desc_filter (l : List Candidate) (s : Int) :
    (sort_by_score_desc l).filter (fun c => decide (c.score = s)) =
      l.filter fun c => decide (c.score = s) := by
  induction l with
  | nil => rfl
  | cons x xs ih =>
    by_cases hx : x.score = s
    · rw [sort_by_score_desc,
        filter_insert_desc_of_eq x _ s hx (sort_by_score_desc_sorted xs), ih]
      simp [List.filter_cons, hx]
    · rw [sort_by_score_desc, filter_insert_desc_of_ne x _ s hx, ih]
      simp [List.filter_cons, hx]

/-! Trace lemmas: no operation after construction reads the store. -/

theorem try_connect_no_read (st : ArbState) (p : String) (env : SysEnv) :
    Event.store_read ∉ (try_connect st p env).2.2 := by
  simp only [try_connect]
  split <;> simp

theorem _probe_port_no_read (st : ArbState) (p : String) (t timeout : ℚ) (env : SysEnv) :
    Event.store_read ∉ (_probe_port st p t timeout env).2.2 := by
  simp only [_probe_port]
  split <;> simp

theorem probe_loop_no_read (cs : List Candidate) (ts : List ℚ) (st : ArbState) (env : SysEnv) :
    Event.store_read ∉ (probe_loop cs ts st env).2.2 := by
  induction cs generalizing ts st with
  | nil => simp [probe_loop]
  | cons c cs ih =>
    simp only [probe_loop]
    intro h
    rcases List.mem_append.1 h with h | h
    · exact _probe_port_no_read _ _ _ _ _ h
    · exact ih _ _ h

theorem acoc_probe_no_read (st : ArbState) (cu : List Candidate) (ts : List ℚ) (env : SysEnv) :
    Event.store_read ∉ (acoc_probe st cu ts env).2.2 := by
  simp only [acoc_probe]
  split
  · split <;>
    · intro h
      rcases List.mem_append.1 h with h | h
      · exact probe_loop_no_read _ _ _ _ h
      · exact try_connect_no_read _ _ _ h
  · exact probe_loop_no_read _ _ _ _

theorem acoc_select_no_read (st : ArbState) (cu : List Candidate) (ts : List ℚ) (env : SysEnv) :
    Event.store_read ∉ (acoc_select st cu ts env).2.2 := by
  simp only [acoc_select]
  split
  · split
    · exact try_connect_no_read _ _ _
    · intro h
      rcases List.mem_append.1 h with h | h
      · exact try_connect_no_read _ _ _ h
      · exact acoc_probe_no_read _ _ _ _ h
  · exact acoc_probe_no_read _ _ _ _

theorem acoc_enumerate_no_read (st : ArbState) (ts : List ℚ) (env : SysEnv) :
    Event.store_read ∉ (acoc_enumerate st ts env).2.2 := by
  simp only [acoc_enumerate]
  split
  · simp
  · split
    · simp
    · exact acoc_select_no_read _ _ _ _

theorem acoc_lastgood_no_read (st : ArbState) (ts : List ℚ) (env : SysEnv) :
    Event.store_read ∉ (acoc_lastgood st ts env).2.2 := by
  simp only [acoc_lastgood]
  split
  · split
    · exact try_connect_no_read _ _ _
    · intro h
      rcases List.mem_append.1 h with h | h
      · exact try_connect_no_read _ _ _ h
      · exact acoc_enumerate_no_read _ _ _ h
  · exact acoc_enumerate_no_read _ _ _

theorem acoc_explicit_no_read (st : ArbState) (ts : List ℚ) (env : SysEnv) :
    Event.store_read ∉ (acoc_explicit st ts env).2.2 := by
  simp only [acoc_explicit]
  split
  · split
    · exact try_connect_no_read _ _ _
    · intro h
      rcases List.mem_append.1 h with h | h
      · exact try_connect_no_read _ _ _ h
      · exact acoc_lastgood_no_read _ _ _ h
  · exact acoc_lastgood_no_read _ _ _

theorem auto_connect_no_read (st : ArbState) (ts : List ℚ) (env : SysEnv) :
    Event.store_read ∉ (auto_connect_or_candidates st ts env).2.2 := by
  simp only [auto_connect_or_candidates]
  split
  · simp
  · exact acoc_explicit_no_read _ _ _

/-! Failure characterization: whenever the cascade does not produce a
truthy port, either the working subset is returned, or an error record
was stored. -/

theorem acoc_probe_cases (st : ArbState) (cu : List Candidate) (ts : List ℚ) (env : SysEnv) :
    py_truthy (acoc_probe st cu ts env).1.1 = true ∨
      (acoc_probe st cu ts env).1 = (none, cu) := by
  simp only [acoc_probe]
  split
  · split
    · rename_i h; exact Or.inl h
    · exact Or.inr rfl
  · exact Or.inr rfl

theorem acoc_select_cases (st : ArbState) (cu : List Candidate) (ts : List ℚ) (env : SysEnv) :
    py_truthy (acoc_select st cu ts env).1.1 = true ∨
      (acoc_select st cu ts env).1 = (none, cu) := by
  simp only [acoc_select]
  split
  · split
    · rename_i h; exact Or.inl h
    · exact acoc_probe_cases _ _ _ _
  · exact acoc_probe_cases _ _ _ _

theorem acoc_enumerate_fail (st : ArbState) (ts : List ℚ) (env : SysEnv)
    (hf : py_truthy (acoc_enumerate st ts env).1.1 = false)
    (he : (acoc_enumerate st ts env).1.2 = []) :
    ∃ rec, (acoc_enumerate st ts env).2.1.last_error = some rec ∧
      (rec.code = "open_failed" ∨ rec.code = "no_candidates") := by
  revert hf he
  simp only [acoc_enumerate]
  split
  · intro _ _; exact ⟨_, rfl, Or.inl rfl⟩
  · rename_i cands hdet
    split
    · intro _ _; exact ⟨_, rfl, Or.inr rfl⟩
    · rename_i hlen
      intro hf he
      exfalso
      have hcands : cands ≠ [] := by
        intro h; exact hlen (by simp [h])
      have hcu : (if cands.filter (fun c => !c.is_bluetooth) = [] then cands
          else cands.filter fun c => !c.is_bluetooth) ≠ [] := by
        split
        · exact hcands
        · rename_i hnb; exact hnb
      rcases acoc_select_cases st (if cands.filter (fun c => !c.is_bluetooth) = [] then cands
          else cands.filter fun c => !c.is_bluetooth) ts env with h | h
      · rw [hf] at h; exact Bool.noConfusion h
      · rw [h] at he; exact hcu he

theorem acoc_lastgood_fail (st : ArbState) (ts : List ℚ) (env : SysEnv)
    (hf : py_truthy (acoc_lastgood st ts env).1.1 = false)
    (he : (acoc_lastgood st ts env).1.2 = []) :
    ∃ rec, (acoc_lastgood st ts env).2.1.last_error = some rec ∧
      (rec.code = "open_failed" ∨ rec.code = "no_candidates") := by
  revert hf he
  simp only [acoc_lastgood]
  split
  · split
    · rename_i htr
      intro hf _
      rw [htr] at hf
      exact Bool.noConfusion hf
    · intro hf he
      exact acoc_enumerate_fail _ ts env hf he
  · intro hf he
    exact acoc_enumerate_fail _ ts env hf he

theorem acoc_explicit_fail (st : ArbState) (ts : List ℚ) (env : SysEnv)
    (hf : py_truthy (acoc_explicit st ts env).1.1 = false)
    (he : (acoc_explicit st ts env).1.2 = []) :
    ∃ rec, (acoc_explicit st ts env).2.1.last_error = some rec ∧
      (rec.code = "open_failed" ∨ rec.code = "no_candidates") := by
  revert hf he
  simp only [acoc_explicit]
  split
  · split
    · rename_i htr
      intro hf _
      rw [htr] at hf
      exact Bool.noConfusion hf
    · intro hf he
      exact acoc_lastgood_fail _ ts env hf he
  · intro hf he
    exact acoc_lastgood_fail _ ts env hf he

theorem auto_connect_fail (st : ArbState) (ts : List ℚ) (env : SysEnv)
    (hident : ∀ q, py_truthy (env.ident_port q) = true)
    (hf : py_truthy (auto_connect_or_candidates st ts env).1.1 = false)
    (he : (auto_connect_or_candidates st ts env).1.2 = []) :
    ∃ rec, (auto_connect_or_candidates st ts env).2.1.last_error = some rec ∧
      (rec.code = "open_failed" ∨ rec.code = "no_candidates") := by
  revert hf he
  simp only [auto_connect_or_candidates]
  split
  · rename_i p hp
    intro hf _
    simp [py_or_str, hident p] at hf
  · intro hf he
    exact acoc_explicit_fail _ ts env hf he

/-- Helper: a held session short-circuits the cascade, returning the
identity-reported port (falling back to the explicit port), clearing
only the last error and making no external attempt. -/
theorem auto_connect_connected (st : ArbState) (ts : List ℚ) (env : SysEnv) (p : String)
    (hdc : st.dc = some p) :
    auto_connect_or_candidates st ts env =
      ((py_or_str (env.ident_port p) st.explicit_port, []),
       { st with last_error := none }, []) := by
  simp [auto_connect_or_candidates, hdc]

/-- Claim C2: while a session is already held, two successive calls of
auto_connect_or_candidates both return the same port (the one the
identity query reports) with an empty candidate list, and neither call
makes any open attempt, probe, or store access (their traces are
empty). -/
theorem c2_idempotent_when_connected (st : ArbState) (ts1 ts2 : List ℚ) (env : SysEnv)
    (p : String) (hdc : st.dc = some p)
    (hident : py_truthy (env.ident_port p) = true) :
    (auto_connect_or_candidates st ts1 env).1 = (env.ident_port p, []) ∧
    (auto_connect_or_candidates (auto_connect_or_candidates st ts1 env).2.1 ts2 env).1 =
      (env.ident_port p, []) ∧
    (auto_connect_or_candidates st ts1 env).2.2 = [] ∧
    (auto_connect_or_candidates (auto_connect_or_candidates st ts1 env).2.1 ts2 env).2.2
      = [] := by
  have h1 := auto_connect_connected st ts1 env p hdc
  have hd2 : ({ st with last_error := none } : ArbState).dc = some p := hdc
  have h2 := auto_connect_connected { st with last_error := none } ts2 env p hd2
  have hor : py_or_str (env.ident_port p) st.explicit_port = env.ident_port p := by
    simp [py_or_str, hident]
  refine ⟨?_, ?_, ?_, ?_⟩ <;> simp [h1, h2, hor]

/-- Witness for C2 at a concrete connected state and environment. -/
theorem c2_witness :
    (auto_connect_or_candidates { fresh_state with dc := some "/dev/ttyUSB0" } [] base_env).1
      = (some "/dev/ttyUSB0", []) ∧
    (auto_connect_or_candidates
      (auto_connect_or_candidates { fresh_state with dc := some "/dev/ttyUSB0" } [] base_env).2.1
      [] base_env).1 = (some "/dev/ttyUSB0", []) ∧
    (auto_connect_or_candidates { fresh_state with dc := some "/dev/ttyUSB0" } [] base_env).2.2
      = [] ∧
    (auto_connect_or_candidates
      (auto_connect_or_candidates { fresh_state with dc := some "/dev/ttyUSB0" } [] base_env).2.1
      [] base_env).2.2 = [] :=
  c2_idempotent_when_connected { fresh_state with dc := some "/dev/ttyUSB0" } [] []
    base_env "/dev/ttyUSB0" rfl rfl

/-- Claim C7: a probe on a path within 5 seconds (monotonic clock) of
the recorded prior probe on that path returns false, leaves the state
unchanged, and makes no attempt at all (no transient session). -/
theorem c7_probe_throttled (st : ArbState) (port : String) (t t0 timeout : ℚ)
    (env : SysEnv)
    (hprev : List.lookup port st.probe_recent = some t0)
    (hwin : t - t0 < 5) :
    _probe_port st port t timeout env = (false, st, []) := by
  simp only [_probe_port, hprev, Option.getD_some]
  rw [if_pos hwin]

/-- Witness for C7: COM3 was probed at time 10; a probe at time 12 is
skipped. -/
theorem c7_witness : _probe_port probe_state "COM3" 12 4 base_env = (false, probe_state, []) :=
  c7_probe_throttled probe_state "COM3" 12 10 4 base_env rfl (by norm_num)

/-- Claim C10: the per-path timestamp is refreshed exactly when a probe
attempt is actually made: a throttled probe returns false with the
state (hence the timestamp) unchanged and an empty trace, while an
unthrottled probe records the current time for the path and traces one
probe attempt. -/
theorem c10_timestamp_on_attempt (st : ArbState) (port : String) (t timeout : ℚ)
    (env : SysEnv) :
    (t - ((List.lookup port st.probe_recent).getD 0) < 5 →
      _probe_port st port t timeout env = (false, st, [])) ∧
    (¬ t - ((List.lookup port st.probe_recent).getD 0) < 5 →
      (_probe_port st port t timeout env).2.1.probe_recent = (port, t) :: st.probe_recent ∧
      (_probe_port st port t timeout env).2.2 = [Event.probe_attempt port]) := by
  constructor
  · intro h
    simp only [_probe_port]
    rw [if_pos h]
  · intro h
    simp only [_probe_port]
    rw [if_neg h]
    exact ⟨rfl, rfl⟩

/-- Witness for C10: a throttled probe at time 12 changes nothing; an
unthrottled probe at time 20 records time 20 for the path. -/
theorem c10_witness :
    _probe_port probe_state "COM3" 12 4 base_env = (false, probe_state, []) ∧
    (_probe_port probe_state "COM3" 20 4 base_env).2.1.probe_recent
      = ("COM3", 20) :: probe_state.probe_recent ∧
    (_probe_port probe_state "COM3" 20 4 base_env).2.2 = [Event.probe_attempt "COM3"] :=
  ⟨(c10_timestamp_on_attempt probe_state "COM3" 12 4 base_env).1
     (by have h : (List.lookup "COM3" probe_state.probe_recent).getD 0 = (10 : ℚ) := rfl
         rw [h]; norm_num),
   (c10_timestamp_on_attempt probe_state "COM3" 20 4 base_env).2
     (by have h : (List.lookup "COM3" probe_state.probe_recent).getD 0 = (10 : ℚ) := rfl
         rw [h]; norm_num)⟩

/-- Claim C8: saving a port to the preference store and loading it back
returns exactly that string (when the best-effort write succeeds), and
loading a missing or corrupted store file returns none (the load
operation is total: failures are swallowed, never raised). -/
theorem c8_store_roundtrip :
    (∀ (port : String) (env : SysEnv) (file : StoreFile), env.write_ok = true →
      _load_last_good_port (_save_last_good_port port env file) = some port) ∧
    _load_last_good_port StoreFile.missing = none ∧
    _load_last_good_port StoreFile.corrupt = none := by
  refine ⟨?_, rfl, rfl⟩
  intro port env file hw
  simp [_save_last_good_port, _load_last_good_port, hw]

/-- Witness for C8 at a concrete port string and store file. -/
theorem c8_witness :
    _load_last_good_port (_save_last_good_port "/dev/ttyACM1" base_env StoreFile.missing)
      = some "/dev/ttyACM1" :=
  c8_store_roundtrip.1 "/dev/ttyACM1" base_env StoreFile.missing rfl

/-- Claim C4: with all other raw attributes fixed, the Bluetooth flag
costs at least 30 points in the base score, and the Windows-family
post-processing demotion of Bluetooth candidates subtracts a further
25 on top of the already-penalized score. -/
theorem c4_bluetooth_penalty (dev : String) (vid pid : Option Int)
    (desc manu prod : Option String) (leg : Bool) (env : SysEnv) (c : Candidate) :
    _score_port dev vid pid desc manu prod true leg ≤
      _score_port dev vid pid desc manu prod false leg - 30 ∧
    (env.os_is_nt = true → c.is_bluetooth = true →
      (windows_adjust env c).score = c.score - 25) := by
  constructor
  · simp only [_score_port,
      show (if (true : Bool) then (-30 : Int) else 0) = -30 from rfl,
      show (if (false : Bool) then (-30 : Int) else 0) = 0 from rfl]
    split_ifs <;> omega
  · intro hnt hbt
    simp [windows_adjust, hnt, hbt]

/-- Witness for C4: the Windows demotion at a concrete Bluetooth
candidate, together with the base-score penalty at concrete
attributes. -/
theorem c4_witness :
    _score_port "/dev/ttyUSB0" none none none none none true false ≤
      _score_port "/dev/ttyUSB0" none none none none none false false - 30 ∧
    (windows_adjust env_windows cand_bt).score = cand_bt.score - 25 :=
  ⟨(c4_bluetooth_penalty "/dev/ttyUSB0" none none none none none false env_windows cand_bt).1,
   (c4_bluetooth_penalty "/dev/ttyUSB0" none none none none none false env_windows cand_bt).2
     rfl rfl⟩

/-- Claim C1: with no held session, no usable explicit port, and no
usable saved port, if after the Bluetooth partition exactly one
non-Bluetooth candidate remains, its score is at least 40, its path is
a real (non-empty) device path, and opening it succeeds, then
auto_connect_or_candidates returns that port with an empty candidate
list and the preference store is updated to that port. -/
theorem c1_single_high_confidence (st : ArbState) (ts : List ℚ) (env : SysEnv)
    (cands : List Candidate) (c : Candidate)
    (hdc : st.dc = none)
    (hexp : py_truthy st.explicit_port = false)
    (hlg : py_truthy st.last_good_port = false)
    (hdet : detect_candidates env = Except.ok cands)
    (hone : cands.filter (fun x => !x.is_bluetooth) = [c])
    (hscore : 40 ≤ c.score)
    (hopen : env.open_ok c.path = true)
    (hpath : ¬ c.path = "")
    (hwrite : env.write_ok = true) :
    (auto_connect_or_candidates st ts env).1 = (some c.path, []) ∧
    (auto_connect_or_candidates st ts env).2.1.store = StoreFile.valid (some c.path) := by
  have hlen : ¬ cands.length = 0 := by
    intro h
    rw [List.length_eq_zero] at h
    rw [h] at hone
    simp at hone
  have e1 : auto_connect_or_candidates st ts env
      = acoc_explicit { st with last_error := none } ts env := by
    simp [auto_connect_or_candidates, hdc]
  have e2 : acoc_explicit { st with last_error := none } ts env
      = acoc_lastgood { st with last_error := none } ts env := by
    simp [acoc_explicit, hexp]
  have e3 : acoc_lastgood { st with last_error := none } ts env
      = acoc_enumerate { st with last_error := none } ts env := by
    simp [acoc_lastgood, hlg]
  have e4 : acoc_enumerate { st with last_error := none } ts env
      = acoc_select { st with last_error := none } [c] ts env := by
    simp [acoc_enumerate, hdet, hlen, hone]
  rw [e1, e2, e3, e4]
  constructor
  · simp [acoc_select, try_connect, hopen, hscore, hpath, py_truthy]
  · simp [acoc_select, try_connect, hopen, hscore, hpath, py_truthy,
      _save_last_good_port, hwrite]

/-- Witness for C1: a fresh controller and a single high-scoring USB
bridge port. -/
theorem c1_witness :
    (auto_connect_or_candidates fresh_state [] env_single).1 = (some "/dev/ttyUSB0", []) ∧
    (auto_connect_or_candidates fresh_state [] env_single).2.1.store
      = StoreFile.valid (some "/dev/ttyUSB0") :=
  c1_single_high_confidence fresh_state [] env_single [cand_single] cand_single
    rfl rfl rfl rfl (by decide) (by decide) rfl (by decide) rfl

/-- Claim C3: whenever enumeration succeeds, detect_candidates returns
a list sorted by descending final (post-adjustment) score, and for
every score value the subsequence of candidates with that score equals
the subsequence in original enumeration order (stability). -/
theorem c3_sorted_stable (env : SysEnv) (ports : List RawPort)
    (henum : env.comports = Except.ok ports) :
    ∃ l, detect_candidates env = Except.ok l ∧
      (l.Pairwise fun a b => b.score ≤ a.score) ∧
      ∀ s : Int, l.filter (fun c => decide (c.score = s)) =
        (pre_candidates env ports).filter fun c => decide (c.score = s) := by
  refine ⟨sort_by_score_desc (pre_candidates env ports), ?_,
    sort_by_score_desc_sorted _, fun s => sort_by_score_desc_filter _ s⟩
  simp [detect_candidates, henum]

/-- Witness for C3 at a four-port enumeration with two score ties. -/
theorem c3_witness :
    ∃ l, detect_candidates env_four = Except.ok l ∧
      (l.Pairwise fun a b => b.score ≤ a.score) ∧
      ∀ s : Int, l.filter (fun c => decide (c.score = s)) =
        (pre_candidates env_four ports_four).filter fun c => decide (c.score = s) :=
  c3_sorted_stable env_four ports_four rfl

/-- Counterexample for C5 as stated: when the listing facility fails,
auto_connect_or_candidates does not propagate the failure to its
caller; it recovers locally, returns (none, []), and records the
failure under the error kind open_failed (the kind the spec reserves
for a specific port refusing to open), not under an enumeration-error
kind. -/
theorem c5_counterexample :
    (auto_connect_or_candidates fresh_state [] env_enum_fail).1 = (none, []) ∧
    (auto_connect_or_candidates fresh_state [] env_enum_fail).2.1.last_error
      = some (ErrRecord.mk "open_failed" "usb subsystem failure" none) := by
  constructor <;> rfl

/-- Claim C5 (amended): detect_candidates itself re-raises a listing
facility failure, but auto_connect_or_candidates catches it, records it
under error kind open_failed with the failure detail, and returns
(none, []); malformed individual ports are skipped during enumeration
and never abort it. -/
theorem c5_amended_enumeration_failure :
    (∀ (st : ArbState) (ts : List ℚ) (env : SysEnv) (e : String),
      st.dc = none → py_truthy st.explicit_port = false →
      py_truthy st.last_good_port = false → env.comports = Except.error e →
      (auto_connect_or_candidates st ts env).1 = (none, []) ∧
      (auto_connect_or_candidates st ts env).2.1.last_error
        = some (ErrRecord.mk "open_failed" e none)) ∧
    (∀ (env : SysEnv) (ports : List RawPort), env.comports = Except.ok ports →
      detect_candidates env
        = Except.ok (sort_by_score_desc (pre_candidates env ports))) ∧
    (∀ (env : SysEnv) (p : RawPort), p.parse_fails = true → parse_port env p = none) := by
  refine ⟨?_, ?_, ?_⟩
  · intro st ts env e hdc hexp hlg hcom
    have e1 : auto_connect_or_candidates st ts env
        = acoc_explicit { st with last_error := none } ts env := by
      simp [auto_connect_or_candidates, hdc]
    have e2 : acoc_explicit { st with last_error := none } ts env
        = acoc_lastgood { st with last_error := none } ts env := by
      simp [acoc_explicit, hexp]
    have e3 : acoc_lastgood { st with last_error := none } ts env
        = acoc_enumerate { st with last_error := none } ts env := by
      simp [acoc_lastgood, hlg]
    rw [e1, e2, e3]
    constructor
    · simp [acoc_enumerate, detect_candidates, hcom]
    · simp [acoc_enumerate, detect_candidates, hcom]
  · intro env ports h
    simp [detect_candidates, h]
  · intro env p h
    simp [parse_port, h]

/-- Witness for the amended C5: a fresh controller against a failing
listing facility, a successful enumeration, and a malformed port. -/
theorem c5_witness :
    ((auto_connect_or_candidates fresh_state [] env_enum_fail).1 = (none, []) ∧
     (auto_connect_or_candidates fresh_state [] env_enum_fail).2.1.last_error
       = some (ErrRecord.mk "open_failed" "usb subsystem failure" none)) ∧
    detect_candidates env_four
      = Except.ok (sort_by_score_desc (pre_candidates env_four ports_four)) ∧
    parse_port base_env { device := "ghost", parse_fails := true } = none :=
  ⟨c5_amended_enumeration_failure.1 fresh_state [] env_enum_fail "usb subsystem failure"
     rfl rfl rfl rfl,
   c5_amended_enumeration_failure.2.1 env_four ports_four rfl,
   c5_amended_enumeration_failure.2.2 base_env { device := "ghost", parse_fails := true } rfl⟩

/-- Claim C6: assuming sessions honour the identity contract (the
identity query reports a truthy port), after any call of
connect_autodetect_if_single that fails to connect, a structured error
record with a kind and detail is stored, and whenever the resolution
ended with a non-empty candidate list the record is the
multiple_candidates kind carrying exactly that list. -/
theorem c6_last_error_after_failure (st : ArbState) (ts : List ℚ) (env : SysEnv)
    (hident : ∀ q, py_truthy (env.ident_port q) = true)
    (hfail : (connect_autodetect_if_single st ts env).1 = none) :
    ∃ rec, (connect_autodetect_if_single st ts env).2.1.last_error = some rec ∧
      (rec.code = "open_failed" ∨ rec.code = "no_candidates" ∨
        rec.code = "multiple_candidates") ∧
      ((auto_connect_or_candidates st ts env).1.2 ≠ [] →
        rec.code = "multiple_candidates" ∧
        rec.candidates = some (auto_connect_or_candidates st ts env).1.2) := by
  revert hfail
  simp only [connect_autodetect_if_single]
  split
  · rename_i htr
    intro hfail
    exfalso
    rw [hfail] at htr
    exact Bool.noConfusion htr
  · rename_i hnt
    split
    · rename_i hemp
      intro _
      have hnt2 : py_truthy (auto_connect_or_candidates st ts env).1.1 = false := by
        simp at hnt
        exact hnt
      rcases auto_connect_fail st ts env hident hnt2 hemp with ⟨rec, hrec, hcode⟩
      refine ⟨rec, hrec, ?_, fun hne => absurd hemp hne⟩
      rcases hcode with h | h
      · exact Or.inl h
      · exact Or.inr (Or.inl h)
    · intro _
      exact ⟨_, rfl, Or.inr (Or.inr rfl), fun _ => ⟨rfl, rfl⟩⟩

/-- Witness for C6: a fresh controller against an empty enumeration
fails and leaves a no_candidates error record. -/
theorem c6_witness :
    ∃ rec, (connect_autodetect_if_single fresh_state [] base_env).2.1.last_error
        = some rec ∧
      (rec.code = "open_failed" ∨ rec.code = "no_candidates" ∨
        rec.code = "multiple_candidates") ∧
      ((auto_connect_or_candidates fresh_state [] base_env).1.2 ≠ [] →
        rec.code = "multiple_candidates" ∧
        rec.candidates = some (auto_connect_or_candidates fresh_state [] base_env).1.2) :=
  c6_last_error_after_failure fresh_state [] base_env (fun _ => rfl) rfl

/-- Claim C9: the preference file is read exactly once, at
construction (which mirrors it into the in-memory last-good port); a
failed connect attempt returns none, leaves both the persisted store
and the in-memory last-good port unchanged, and traces only the open
attempt (no write); a successful connect writes the store; and the
resolution flow itself never reads the store. -/
theorem c9_persistence_discipline :
    (∀ (ep : Option String) (file : StoreFile),
      (init_controller ep file).2 = [Event.store_read] ∧
      (init_controller ep file).1.last_good_port = _load_last_good_port file) ∧
    (∀ (st : ArbState) (port : String) (env : SysEnv), env.open_ok port = false →
      (try_connect st port env).1 = none ∧
      (try_connect st port env).2.1.store = st.store ∧
      (try_connect st port env).2.1.last_good_port = st.last_good_port ∧
      (try_connect st port env).2.2 = [Event.open_attempt port]) ∧
    (∀ (st : ArbState) (port : String) (env : SysEnv), env.open_ok port = true →
      (try_connect st port env).2.2 = [Event.open_attempt port, Event.store_write port]) ∧
    (∀ (st : ArbState) (ts : List ℚ) (env : SysEnv),
      Event.store_read ∉ (auto_connect_or_candidates st ts env).2.2) := by
  refine ⟨fun ep file => ⟨rfl, rfl⟩, ?_, ?_, auto_connect_no_read⟩
  · intro st port env h
    simp [try_connect, h]
  · intro st port env h
    simp [try_connect, h]

/-- Witness for C9 at concrete construction, a failing open, a
succeeding open, and a concrete resolution run. -/
theorem c9_witness :
    (init_controller none StoreFile.missing).2 = [Event.store_read] ∧
    (try_connect fresh_state "COM7" env_openfail).2.1.store = fresh_state.store ∧
    (try_connect fresh_state "COM7" base_env).2.2
      = [Event.open_attempt "COM7", Event.store_write "COM7"] ∧
    Event.store_read ∉ (auto_connect_or_candidates fresh_state [] base_env).2.2 :=
  ⟨(c9_persistence_discipline.1 none StoreFile.missing).1,
   (c9_persistence_discipline.2.1 fresh_state "COM7" env_openfail rfl).2.1,
   c9_persistence_discipline.2.2.1 fresh_state "COM7" base_env rfl,
   c9_persistence_discipline.2.2.2 fresh_state [] base_env⟩

end MeshCfg
